import Mathlib

/-!
Verification of the PlanScore tile-based district scorer.

The development shallowly embeds `planscore/tiles.py` and
`planscore/prepare_state.py`.  Geometry operations (OGR `Intersection`,
`Area`, `Within`, `Disjoint`, `IsEmpty`, `IsValid`, `Buffer`) are external
library calls; they are modelled as a record of operations `GeomOps G` over
an abstract geometry type `G`, and a concrete executable model of
axis-aligned rational boxes (`BoxGeom`) instantiates it for concrete
evaluations.  Python exceptions are modelled with `Except PyErr`.
-/

namespace PlanScore

instance exceptDecEq {E A : Type} [DecidableEq E] [DecidableEq A] :
    DecidableEq (Except E A) := fun a b =>
  match a, b with
  | .error e1, .error e2 =>
    if h : e1 = e2 then .isTrue (by rw [h])
    else .isFalse (fun hc => h (by cases hc; rfl))
  | .ok x, .ok y =>
    if h : x = y then .isTrue (by rw [h])
    else .isFalse (fun hc => h (by cases hc; rfl))
  | .error _, .ok _ => .isFalse (fun hc => by cases hc)
  | .ok _, .error _ => .isFalse (fun hc => by cases hc)

/-- Errors a scoring run can raise, mirroring the Python exception kinds
that `tiles.py` can produce or observe. -/
inductive OgrError where
  | topologyExc (msg : String)
  | otherExc (msg : String)
deriving DecidableEq, Repr

/-- Models the Python membership check of the text TopologyException in
the message of a RuntimeError raised by the OGR Intersection call. -/
def errTopology : OgrError → Bool
  | .topologyExc _ => true
  | .otherExc _ => false

/-- Python-level errors observable in the embedded functions. -/
inductive PyErr where
  | clientError (code : String)
  | keyError (k : String)
  | typeError
  | attributeError
  | nameError
  | runtime (e : OgrError)
deriving DecidableEq, Repr

/-- Models str(err) as used by the except branch of `lambda_handler`. -/
def pyErrStr : PyErr → String
  | .clientError code => "ClientError: " ++ code
  | .keyError k => "KeyError: " ++ k
  | .typeError => "TypeError"
  | .attributeError => "AttributeError"
  | .nameError => "NameError"
  | .runtime (.topologyExc m) => "RuntimeError: TopologyException " ++ m
  | .runtime (.otherExc m) => "RuntimeError: " ++ m

/-- Abstract record of the OGR geometry operations used by `tiles.py`.
`intersectionE` is fallible, modelling that `Geometry.Intersection` can
raise a `RuntimeError`. `isPointType` models the membership test of
`GetGeometryType()` in `(wkbPoint, wkbPoint25D, wkbMultiPoint,
wkbMultiPoint25D)`. -/
structure GeomOps (G : Type) where
  isEmpty : G → Bool
  isPointType : G → Bool
  within : G → G → Bool
  disjoint : G → G → Bool
  intersectionE : G → G → Except OgrError G
  area : G → ℚ
  isValid : G → Bool
  buffer : G → ℚ → G

/-- Constant FRACTION_FIELD of `prepare_state` (line 6). -/
def FRACTION_FIELD : String := "PlanScore:Fraction"

/-- The tiny buffer distance `0.0000001` used to repair invalid precinct
geometries in `score_precinct`. -/
def bufferEps : ℚ := 1 / 10000000

/-- A GeoJSON precinct feature as `score_precinct` reads it: a geometry
(`none` models a missing geometry / `CreateGeometryFromJson` returning
`None`) and a property mapping whose values are JSON numbers or null. -/
structure Feature (G : Type) where
  geometry : Option G
  properties : List (String × Option ℚ)
deriving DecidableEq, Repr

/-- Dictionary lookup on the property mapping: `none` models a missing key
(a Python `KeyError` on subscript), `some none` a JSON null value. -/
def lookupProp (props : List (String × Option ℚ)) (name : String) : Option (Option ℚ) :=
  (props.find? (fun p => p.fst = name)).map Prod.snd

/-- Per-district totals: an insertion-ordered dict of attribute name to
accumulated numeric value. -/
abbrev Totals := List (String × ℚ)

/-- Python 3 `round` to `r` decimal digits on exact rationals:
round-half-to-even of `q * 10^r`. -/
def rhalfEven (q : ℚ) : ℤ :=
  if q - q.floor < 1 / 2 then q.floor
  else if q - q.floor > 1 / 2 then q.floor + 1
  else if q.floor % 2 = 0 then q.floor else q.floor + 1

/-- Python round(q, r) with `r` the fixed decimal precision
constants.ROUND_COUNT.  The constants module is not part of the sources;
the precision is kept as a parameter `r` throughout. -/
def round10 (r : ℕ) (q : ℚ) : ℚ := rhalfEven (q * 10 ^ r) / 10 ^ r

/-- Line 69 of `tiles.py`: a dict mapping each name of score.FIELD_NAMES
that occurs in the feature properties to an initial 0.  The score module
is not part of the sources; FIELD_NAMES is kept as the parameter
`fieldNames`. -/
def initTotals (fieldNames : List String) (props : List (String × Option ℚ)) : Totals :=
  (fieldNames.filter (fun n => (lookupProp props n).isSome)).map (fun n => (n, (0 : ℚ)))

/-- The final loop of `score_precinct` (lines 117-119): for each name
already in `totals`, set it to `round(precinct_fraction *
(properties[name] or 0), ROUND_COUNT)`.  `pf = none` models
`precinct_fraction` being Python `None`, in which case the multiplication
raises a `TypeError`; a JSON-null attribute value contributes `0` via
`or 0`. -/
def finalizeTotals (r : ℕ) (props : List (String × Option ℚ)) (totals : Totals)
    (pf : Option ℚ) : Except PyErr Totals :=
  totals.mapM (fun p =>
    match lookupProp props p.fst with
    | none => .error (.keyError p.fst)
    | some v =>
      match pf with
      | none => .error .typeError
      | some f => .ok (p.fst, round10 r (f * v.getD 0)))

/-- Lines 110-119 of `tiles.py`: the code after the intersection succeeds.
`pg` is the (possibly buffered) precinct geometry, `ov` the overlap.
Guards a zero-area precinct geometry, otherwise
`precinct_fraction = (overlap.Area() / precinct.Area()) * precinct_frac`. -/
def afterIntersect {G : Type} (ops : GeomOps G) (r : ℕ)
    (props : List (String × Option ℚ)) (totals : Totals) (fr : Option ℚ)
    (pg ov : G) : Except PyErr Totals :=
  if ops.area pg = 0 then .ok totals
  else
    match fr with
    | none => .error .typeError
    | some f => finalizeTotals r props totals (some (ops.area ov / ops.area pg * f))

/-- Lines 87-119 of `tiles.py`: from the `precinct_frac == 0` short-circuit
onward.  `is_point` and `fr` are the weight basis computed on lines 78-85;
`dpg` is the partial district geometry (district ∩ tile). -/
def scoreWeighted {G : Type} (ops : GeomOps G) (r : ℕ)
    (props : List (String × Option ℚ)) (totals : Totals)
    (is_point : Bool) (fr : Option ℚ) (pg dpg tile_geom : G) : Except PyErr Totals :=
  if fr = some 0 then .ok totals
  else if ops.within tile_geom dpg then
    finalizeTotals r props totals fr
  else if is_point then
    finalizeTotals r props totals (if ops.within pg dpg then fr else some 0)
  else
    match ops.intersectionE pg dpg with
    | .ok ov => afterIntersect ops r props totals fr pg ov
    | .error e =>
      if errTopology e && !ops.isValid pg then
        match ops.intersectionE (ops.buffer pg bufferEps) dpg with
        | .ok ov => afterIntersect ops r props totals fr (ops.buffer pg bufferEps) ov
        | .error e2 => .error (.runtime e2)
      else .error (.runtime e)

/-- Function score_precinct of `tiles.py` (lines 63-121).  The argument
`district_part_geom` plays the role of the partial district geometry
(district ∩ tile); `none` models the Python value None. -/
def score_precinct {G : Type} (ops : GeomOps G) (fieldNames : List String) (r : ℕ)
    (district_part_geom : Option G) (precinct_feat : Feature G) (tile_geom : G) :
    Except PyErr Totals :=
  match precinct_feat.geometry with
  | none => .ok (initTotals fieldNames precinct_feat.properties)
  | some pg =>
    if ops.isEmpty pg then .ok (initTotals fieldNames precinct_feat.properties)
    else
      match district_part_geom with
      | none => .ok (initTotals fieldNames precinct_feat.properties)
      | some dpg =>
        if ops.isEmpty dpg then .ok (initTotals fieldNames precinct_feat.properties)
        else if ops.isPointType pg then
          scoreWeighted ops r precinct_feat.properties
            (initTotals fieldNames precinct_feat.properties) true (some 1) pg dpg tile_geom
        else
          match lookupProp precinct_feat.properties FRACTION_FIELD with
          | none => .error (.keyError FRACTION_FIELD)
          | some fr =>
            scoreWeighted ops r precinct_feat.properties
              (initTotals fieldNames precinct_feat.properties) false fr pg dpg tile_geom

/-- Modelled from the spec: the explicit intersection-based computation of
steps 6-7 of §4.3 with the containment shortcut of step 5 removed — always
takes the point inside/outside test or the area-intersection path.  Used
only to compare against the shortcut-taking `scoreWeighted`. -/
def scoreWeightedExplicit {G : Type} (ops : GeomOps G) (r : ℕ)
    (props : List (String × Option ℚ)) (totals : Totals)
    (is_point : Bool) (fr : Option ℚ) (pg dpg : G) : Except PyErr Totals :=
  if fr = some 0 then .ok totals
  else if is_point then
    finalizeTotals r props totals (if ops.within pg dpg then fr else some 0)
  else
    match ops.intersectionE pg dpg with
    | .ok ov => afterIntersect ops r props totals fr pg ov
    | .error e =>
      if errTopology e && !ops.isValid pg then
        match ops.intersectionE (ops.buffer pg bufferEps) dpg with
        | .ok ov => afterIntersect ops r props totals fr (ops.buffer pg bufferEps) ov
        | .error e2 => .error (.runtime e2)
      else .error (.runtime e)

/-- Modelled from the spec: `scorePrecinct` by the explicit computation of
§4.3 steps 6-7, never taking the step-5 containment shortcut. -/
def score_precinct_explicit {G : Type} (ops : GeomOps G) (fieldNames : List String) (r : ℕ)
    (district_part_geom : Option G) (precinct_feat : Feature G) (_tile_geom : G) :
    Except PyErr Totals :=
  match precinct_feat.geometry with
  | none => .ok (initTotals fieldNames precinct_feat.properties)
  | some pg =>
    if ops.isEmpty pg then .ok (initTotals fieldNames precinct_feat.properties)
    else
      match district_part_geom with
      | none => .ok (initTotals fieldNames precinct_feat.properties)
      | some dpg =>
        if ops.isEmpty dpg then .ok (initTotals fieldNames precinct_feat.properties)
        else if ops.isPointType pg then
          scoreWeightedExplicit ops r precinct_feat.properties
            (initTotals fieldNames precinct_feat.properties) true (some 1) pg dpg
        else
          match lookupProp precinct_feat.properties FRACTION_FIELD with
          | none => .error (.keyError FRACTION_FIELD)
          | some fr =>
            scoreWeightedExplicit ops r precinct_feat.properties
              (initTotals fieldNames precinct_feat.properties) false fr pg dpg

/-- Dict lookup on a totals mapping (`totals.get(name, default)` uses
`.getD`). -/
def getAssoc (l : Totals) (n : String) : Option ℚ :=
  (l.find? (fun p => p.fst = n)).map Prod.snd

/-- The dict comprehension of lines 58-59: each subtotal entry is mapped
to round(value + totals.get(name, 0), ROUND_COUNT), evaluated against the
pre-update totals. -/
def roundAdd (r : ℕ) (totals subtotals : Totals) : Totals :=
  subtotals.map (fun p => (p.fst, round10 r (p.snd + (getAssoc totals p.fst).getD 0)))

/-- Python `dict.update`: existing keys are overwritten in place, new keys
are appended in the order of the update. -/
def dictUpdate (totals upd : Totals) : Totals :=
  totals.map (fun p => (p.fst, (getAssoc upd p.fst).getD p.snd))
    ++ upd.filter (fun p => (getAssoc totals p.fst).isNone)

/-- Function score_district of `tiles.py`
(lines 46-61): short-circuit on disjointness, compute `district ∩ tile`
once, then fold `score_precinct` over the precinct list, accumulating with
rounding after each addition.  The uncaught `RuntimeError` that
`Intersection` may raise on line 54 propagates. -/
def score_district {G : Type} (ops : GeomOps G) (fieldNames : List String) (r : ℕ)
    (district_geom : G) (precincts : List (Feature G)) (tile_geom : G) :
    Except PyErr Totals :=
  if ops.disjoint district_geom tile_geom then .ok []
  else
    match ops.intersectionE district_geom tile_geom with
    | .error e => .error (.runtime e)
    | .ok dpg =>
      precincts.foldlM (fun totals precinct_feat => do
        let subtotals ← score_precinct ops fieldNames r (some dpg) precinct_feat tile_geom
        pure (dictUpdate totals (roundAdd r totals subtotals))) []

/-- Modelled from the spec: `scoreDistrictOverTile(districtGeometry,
precinctList, tileGeometry)` of §4.3 — empty totals if district and tile
are disjoint; otherwise compute `district ∩ tile` once, score every
precinct of the tile against that same partial geometry, and sum the
per-precinct subtotals (rounding after each addition) into one mapping. -/
def scoreDistrictOverTile {G : Type} (ops : GeomOps G) (fieldNames : List String) (r : ℕ)
    (district_geom : G) (precincts : List (Feature G)) (tile_geom : G) :
    Except PyErr Totals :=
  if ops.disjoint district_geom tile_geom then .ok []
  else
    match ops.intersectionE district_geom tile_geom with
    | .error e => .error (.runtime e)
    | .ok dpg => do
      let subs ← precincts.mapM
        (fun precinct_feat => score_precinct ops fieldNames r (some dpg) precinct_feat tile_geom)
      pure (subs.foldl (fun totals subtotals => dictUpdate totals (roundAdd r totals subtotals)) [])

/-! ### Partition reader (`load_tile_precincts`, lines 10-25) -/

/-- The storage descriptor together with the get_object call of its S3
client: the result is the pair (ContentEncoding, Body), an error models a
raised exception; a ClientError with code NoSuchKey models a missing
key. -/
structure StorageG (B : Type) where
  bucket : String
  pref : String
  getObject : String → String → Except PyErr (Option String × B)

/-- Function load_tile_precincts of `tiles.py` (lines 10-25): fetch the
object whose key joins the storage prefix, the tile id and the .geojson
extension; a NoSuchKey client error yields `[]`; any other client error
re-raises; on success, gunzip if the ContentEncoding says gzip, then take
the features list of the JSON-decoded body.  `gunzip` and `jsonFeatures`
model the external gzip and JSON decoding. -/
def load_tile_precincts {B F : Type} (gunzip : B → B) (jsonFeatures : B → List F)
    (storage : StorageG B) (tile_zxy : String) : Except PyErr (List F) :=
  match storage.getObject storage.bucket (storage.pref ++ "/" ++ tile_zxy ++ ".geojson") with
  | .error (.clientError code) =>
    if code = "NoSuchKey" then .ok [] else .error (.clientError code)
  | .error e => .error e
  | .ok (enc, body) =>
    .ok (jsonFeatures (if enc = some "gzip" then gunzip body else body))

/-! ### Tile enumeration (`prepare_state.iter_extent_tiles`, lines 18-41) -/

/-- A ModestMaps `Coordinate(row, column, zoom)`. -/
structure MCoord where
  row : ℤ
  column : ℤ
  zoom : ℤ
deriving DecidableEq, Repr

/-- Python `range(a, b + 1)` over integers, as a list. -/
def intRange (a b : ℤ) : List ℤ :=
  (List.range (b + 1 - a).toNat).map (fun (i : ℕ) => a + (i : ℤ))

/-- Function iter_extent_tiles of `prepare_state.py` (lines 18-41) as a
list.
`locCoord zoom lat lon` models
`mercator.locationCoordinate(Location(lat, lon)).zoomTo(zoom).container()`
returning `(row, column)`, and `coordLoc zoom row column` models
`mercator.coordinateLocation(Coordinate(row, column, zoom))` returning
`(lat, lon)`; both are transcendental spherical-mercator conversions and
are kept as parameters.  Each yielded pair is the tile coordinate and the
corner tuple `(x1, y1, x2, y2)` interpolated into the bbox WKT. -/
def iter_extent_tiles (locCoord : ℤ → ℚ → ℚ → ℤ × ℤ) (coordLoc : ℤ → ℤ → ℤ → ℚ × ℚ)
    (xxyy_extent : ℚ × ℚ × ℚ × ℚ) (zoom : ℤ) : List (MCoord × (ℚ × ℚ × ℚ × ℚ)) :=
  ((intRange (locCoord zoom xxyy_extent.2.2.2 xxyy_extent.1).1
             (locCoord zoom xxyy_extent.2.2.1 xxyy_extent.2.1).1).flatMap (fun row =>
    (intRange (locCoord zoom xxyy_extent.2.2.2 xxyy_extent.1).2
              (locCoord zoom xxyy_extent.2.2.1 xxyy_extent.2.1).2).map (fun column =>
      (⟨row, column, zoom⟩,
       ((coordLoc zoom row column).2, (coordLoc zoom (row + 1) (column + 1)).1,
        (coordLoc zoom (row + 1) (column + 1)).2, (coordLoc zoom row column).1)))))

/-! ### Tile-scoring entry point (`lambda_handler`, lines 123-151) -/

/-- Models posixpath.relpath for the layout actually used: a key lying
under the given path has that path and its separator dropped. -/
def relpathUnder (model_key_pref tile_key : String) : String :=
  if tile_key.startsWith (model_key_pref ++ "/") then
    tile_key.drop (model_key_pref.length + 1)
  else tile_key

/-- The root part of `posixpath.splitext`: drop the text from the last
dot on. -/
def splitextRoot (s : String) : String :=
  match s.toList.reverse.findIdx? (fun c => c = '.') with
  | none => s
  | some i => ((s.toList.take (s.toList.length - i - 1)).asString)

/-- Function get_tile_zxy of `tiles.py` (lines 27-31). -/
def get_tile_zxy (model_key_pref tile_key : String) : String :=
  splitextRoot (relpathUnder model_key_pref tile_key)

/-- Totals value written by `lambda_handler`: a dict of geometry key to
district totals, or the string `str(err)` after the catch-all. -/
abbrev TotalsVal := Sum (List (String × Totals)) String

/-- The environment of one `lambda_handler` invocation: the geometry
operations, the external S3 calls it performs, and the event- and
upload-derived strings.  `listObjects` models
the key extraction from the Contents of s3.list_objects, `getBodyWkt`
models reading and decoding the body of s3.get_object, `parseWkt` models
ogr.CreateGeometryFromWkt (with `none` for a failed parse), and
`tileGeomOf` models the cached tile_geometry conversion. -/
structure HandlerEnv (G B : Type) where
  ops : GeomOps G
  fieldNames : List String
  roundCount : ℕ
  storage : StorageG B
  gunzip : B → B
  jsonFeatures : B → List (Feature G)
  listObjects : String → Except PyErr (List String)
  getBodyWkt : String → Except PyErr String
  parseWkt : String → Option G
  tileGeomOf : String → G
  model_key_pref : String
  tiles_key_of : String → String
  geoms_pref : String
  event_key : String

/-- The loop of lines 142-145: for each geometry key, fetch the WKT body,
parse it, and score the district over the tile.  `CreateGeometryFromWkt`
returning `None` makes the subsequent `None.Disjoint(...)` raise an
`AttributeError`. -/
def scoreGeometryKeys {G B : Type} (env : HandlerEnv G B)
    (precincts : List (Feature G)) (tile_geom : G) :
    List String → Except PyErr (List (String × Totals)) :=
  fun gkeys => gkeys.foldlM (fun totals geometry_key => do
    let body ← env.getBodyWkt geometry_key
    match env.parseWkt body with
    | none => .error .attributeError
    | some district_geom => do
      let t ← score_district env.ops env.fieldNames env.roundCount
        district_geom precincts tile_geom
      pure (totals ++ [(geometry_key, t)])) []

/-- The local variables of `lambda_handler` as they stand when the `try`
block exits: `none` models a name never assigned (touching it afterwards
raises `NameError`), `err` the exception caught by the catch-all. -/
structure HandlerState (G : Type) where
  precincts : Option (List (Feature G))
  tile_key : Option String
  totalsVar : Option TotalsVal
  err : Option PyErr

/-- The `try` block of `lambda_handler` (lines 130-147 with the `except`
rebinding `totals = str(err)`): runs the fetch/list/score sequence,
recording which variables were assigned before any exception. -/
def handlerTry {G B : Type} (env : HandlerEnv G B) : HandlerState G :=
  match load_tile_precincts env.gunzip env.jsonFeatures env.storage
      (get_tile_zxy env.model_key_pref env.event_key) with
  | .error e => ⟨none, none, some (.inr (pyErrStr e)), some e⟩
  | .ok precincts =>
    match env.listObjects env.geoms_pref with
    | .error e =>
      ⟨some precincts, some (env.tiles_key_of (get_tile_zxy env.model_key_pref env.event_key)),
       some (.inr (pyErrStr e)), some e⟩
    | .ok geometry_keys =>
      match scoreGeometryKeys env precincts
          (env.tileGeomOf (get_tile_zxy env.model_key_pref env.event_key)) geometry_keys with
      | .error e =>
        ⟨some precincts, some (env.tiles_key_of (get_tile_zxy env.model_key_pref env.event_key)),
         some (.inr (pyErrStr e)), some e⟩
      | .ok totals =>
        ⟨some precincts, some (env.tiles_key_of (get_tile_zxy env.model_key_pref env.event_key)),
         some (.inl totals), none⟩

/-- The object `lambda_handler` writes with `s3.put_object` on lines
149-151 (the parts of the body that vary). -/
structure PutRecord where
  key : String
  tile_key : String
  geoms_pref : String
  totals : TotalsVal
  precinct_count : ℕ
deriving DecidableEq, Repr

/-- Function lambda_handler of `tiles.py` (lines 123-151): run the try
block; any
exception it raises is caught and its string becomes the totals value;
then the result object is written.  The write itself raises `NameError`
when `tile_key` or `precincts` was never assigned (an exception escaped
before line 132-133 completed). -/
def lambda_handler {G B : Type} (env : HandlerEnv G B) : Except PyErr PutRecord :=
  match handlerTry env with
  | ⟨some precincts, some tile_key, some totalsVar, _⟩ =>
    .ok ⟨tile_key, tile_key, env.geoms_pref, totalsVar, precincts.length⟩
  | _ => .error .nameError

/-! ### A concrete executable geometry model

Axis-aligned rational boxes and points, used to evaluate the embedded
functions at concrete inputs.  `Intersection` never raises in this model;
a second, table-driven model below exercises the error paths. -/

inductive BoxGeom where
  | emptyG
  | pointG (x y : ℚ)
  | boxG (x1 y1 x2 y2 : ℚ)
deriving DecidableEq, Repr

namespace BoxGeom

def area : BoxGeom → ℚ
  | emptyG => 0
  | pointG _ _ => 0
  | boxG x1 y1 x2 y2 => max 0 (x2 - x1) * max 0 (y2 - y1)

def isEmpty : BoxGeom → Bool
  | emptyG => true
  | _ => false

def isPointType : BoxGeom → Bool
  | pointG _ _ => true
  | _ => false

def within : BoxGeom → BoxGeom → Bool
  | pointG x y, boxG x1 y1 x2 y2 => x1 ≤ x && x ≤ x2 && y1 ≤ y && y ≤ y2
  | pointG x y, pointG u v => x = u && y = v
  | boxG a1 b1 a2 b2, boxG x1 y1 x2 y2 => x1 ≤ a1 && a2 ≤ x2 && y1 ≤ b1 && b2 ≤ y2
  | _, _ => false

def inter : BoxGeom → BoxGeom → BoxGeom
  | boxG a1 b1 a2 b2, boxG x1 y1 x2 y2 =>
    if max a1 x1 ≤ min a2 x2 && max b1 y1 ≤ min b2 y2 then
      boxG (max a1 x1) (max b1 y1) (min a2 x2) (min b2 y2)
    else emptyG
  | pointG x y, g => if within (pointG x y) g then pointG x y else emptyG
  | g, pointG x y => if within (pointG x y) g then pointG x y else emptyG
  | _, _ => emptyG

def disjoint (g h : BoxGeom) : Bool := isEmpty (inter g h)

/-- The `GeomOps` instance of the box model: intersections always succeed,
geometries are always valid, buffering is the identity. -/
def ops : GeomOps BoxGeom where
  isEmpty := isEmpty
  isPointType := isPointType
  within := within
  disjoint := disjoint
  intersectionE := fun g h => .ok (inter g h)
  area := area
  isValid := fun _ => true
  buffer := fun g _ => g

end BoxGeom

/-- A table-driven geometry model that exercises the intersection error
paths: geometry `0` is a polygon whose intersection raises `e` (and whose
validity is `valid`), `1` is its buffered repair whose intersections
succeed with overlap `2`. -/
def topoOps (valid : Bool) (e : OgrError) : GeomOps ℕ where
  isEmpty := fun _ => false
  isPointType := fun _ => false
  within := fun _ _ => false
  disjoint := fun _ _ => false
  intersectionE := fun g _ => if g = 0 then .error e else .ok 2
  area := fun g => if g = 1 then 2 else 1
  isValid := fun _ => valid
  buffer := fun _ _ => 1

/-- The numeric value `properties[name] or 0` of an attribute: `0` both for
a JSON-null value and (vacuously, it cannot be reached from `initTotals`
keys) for a missing key. -/
def propVal (props : List (String × Option ℚ)) (n : String) : ℚ :=
  ((lookupProp props n).getD none).getD 0

/-- A concrete handler environment in which everything up to the scoring
loop succeeds (one precinct, one district geometry key) and then the
district-geometry fetch raises a client error. -/
def handlerEnv0 : HandlerEnv BoxGeom (List (Feature BoxGeom)) where
  ops := BoxGeom.ops
  fieldNames := ["Voters"]
  roundCount := 4
  storage := ⟨"bucket", "data/XX/000",
    fun _ _ => .ok (none,
      [⟨some (.boxG 0 0 1 1), [("Voters", some 1), (FRACTION_FIELD, some 1)]⟩])⟩
  gunzip := id
  jsonFeatures := id
  listObjects := fun _ => .ok ["uploads/ID/geometries/0.wkt"]
  getBodyWkt := fun _ => .error (.clientError "AccessDenied")
  parseWkt := fun _ => none
  tileGeomOf := fun _ => .boxG 0 0 10 10
  model_key_pref := "data/XX/000"
  tiles_key_of := fun zxy => "uploads/ID/tiles/" ++ zxy ++ ".json"
  geoms_pref := "uploads/ID/geometries"
  event_key := "data/XX/000/12/2047/2047.geojson"

/-- A concrete handler environment in which the precinct fetch succeeds
and then the geometry listing itself raises a client error (with the tile
key already bound). -/
def handlerEnv1 : HandlerEnv BoxGeom (List (Feature BoxGeom)) where
  ops := BoxGeom.ops
  fieldNames := ["Voters"]
  roundCount := 4
  storage := ⟨"bucket", "data/XX/000",
    fun _ _ => .ok (none,
      [⟨some (.boxG 0 0 1 1), [("Voters", some 1), (FRACTION_FIELD, some 1)]⟩])⟩
  gunzip := id
  jsonFeatures := id
  listObjects := fun _ => .error (.clientError "Throttled")
  getBodyWkt := fun _ => .error (.clientError "AccessDenied")
  parseWkt := fun _ => none
  tileGeomOf := fun _ => .boxG 0 0 10 10
  model_key_pref := "data/XX/000"
  tiles_key_of := fun zxy => "uploads/ID/tiles/" ++ zxy ++ ".json"
  geoms_pref := "uploads/ID/geometries"
  event_key := "data/XX/000/12/2047/2047.geojson"

/-! ### Helper lemmas -/

theorem rhalfEven_zero : rhalfEven 0 = 0 := by with_unfolding_all rfl

theorem round10_zero (r : ℕ) : round10 r 0 = 0 := by
  unfold round10
  rw [zero_mul, rhalfEven_zero]
  simp

theorem lookupProp_initTotals_isSome {fn : List String} {props : List (String × Option ℚ)} :
    ∀ p ∈ initTotals fn props, (lookupProp props p.fst).isSome := by
  intro p hp
  simp only [initTotals, List.mem_map, List.mem_filter] at hp
  obtain ⟨n, ⟨_, hs⟩, rfl⟩ := hp
  exact hs

theorem initTotals_keys (fn : List String) (props : List (String × Option ℚ)) :
    (initTotals fn props).map Prod.fst = fn.filter (fun n => (lookupProp props n).isSome) := by
  simp only [initTotals, List.map_map]
  exact List.map_id _

theorem initTotals_values (fn : List String) (props : List (String × Option ℚ)) :
    ∀ p ∈ initTotals fn props, p.snd = 0 := by
  intro p hp
  simp only [initTotals, List.mem_map] at hp
  obtain ⟨n, _, rfl⟩ := hp
  rfl

theorem finalizeTotals_some_eq (r : ℕ) (props : List (String × Option ℚ)) (f : ℚ) :
    ∀ l : Totals, (∀ p ∈ l, (lookupProp props p.fst).isSome) →
      finalizeTotals r props l (some f) =
        .ok (l.map (fun p => (p.fst, round10 r (f * propVal props p.fst)))) := by
  intro l
  induction l with
  | nil => intro _; rfl
  | cons p l ih =>
    intro h
    obtain ⟨v, hv⟩ := Option.isSome_iff_exists.mp (h p (List.mem_cons_self ..))
    have hrest := ih (fun q hq => h q (List.mem_cons_of_mem _ hq))
    simp only [finalizeTotals, List.mapM_cons, hv] at hrest ⊢
    rw [hrest]
    simp only [List.map_cons, propVal, hv, Option.getD_some]
    rfl

theorem finalizeTotals_ok_keys (r : ℕ) (props : List (String × Option ℚ)) (pf : Option ℚ) :
    ∀ (l t : Totals), finalizeTotals r props l pf = .ok t →
      t.map Prod.fst = l.map Prod.fst := by
  intro l
  induction l with
  | nil =>
    intro t ht
    simp only [finalizeTotals, List.mapM_nil] at ht
    cases ht
    rfl
  | cons p l ih =>
    intro t ht
    simp only [finalizeTotals, List.mapM_cons] at ht ih
    cases hv : lookupProp props p.fst with
    | none => rw [hv] at ht; cases ht
    | some v =>
      rw [hv] at ht
      cases pf with
      | none => cases ht
      | some f =>
        cases hrest : l.mapM (fun q =>
            match lookupProp props q.fst with
            | none => Except.error (PyErr.keyError q.fst)
            | some v =>
              match some f with
              | none => Except.error PyErr.typeError
              | some f => Except.ok (q.fst, round10 r (f * v.getD 0))) with
        | error e => rw [hrest] at ht; cases ht
        | ok xs =>
          rw [hrest] at ht
          cases ht
          simpa using ih xs hrest

theorem afterIntersect_ok_keys {G : Type} (ops : GeomOps G) (r : ℕ)
    (props : List (String × Option ℚ)) (l : Totals) (fr : Option ℚ) (pg ov : G)
    (t : Totals) (ht : afterIntersect ops r props l fr pg ov = .ok t) :
    t.map Prod.fst = l.map Prod.fst := by
  unfold afterIntersect at ht
  split at ht
  · cases ht; rfl
  · cases fr with
    | none => cases ht
    | some f => exact finalizeTotals_ok_keys r props _ l t ht

theorem scoreWeighted_ok_keys {G : Type} (ops : GeomOps G) (r : ℕ)
    (props : List (String × Option ℚ)) (l : Totals) (is_point : Bool) (fr : Option ℚ)
    (pg dpg tg : G) (t : Totals)
    (ht : scoreWeighted ops r props l is_point fr pg dpg tg = .ok t) :
    t.map Prod.fst = l.map Prod.fst := by
  unfold scoreWeighted at ht
  split at ht
  · cases ht; rfl
  · split at ht
    · exact finalizeTotals_ok_keys r props fr l t ht
    · split at ht
      · exact finalizeTotals_ok_keys r props _ l t ht
      · split at ht
        · exact afterIntersect_ok_keys ops r props l fr pg _ t ht
        · split at ht
          · split at ht
            · exact afterIntersect_ok_keys ops r props l fr _ _ t ht
            · cases ht
          · cases ht

/-! ### Claim theorems -/

/-- C4: for every storage descriptor and tile id, `load_tile_precincts`
returns the empty list when the storage fetch fails with a not-found
(`NoSuchKey`) client error, re-raises every other storage client error,
and on success returns the `features` list decoded from the fetched
GeoJSON object (gunzipped when the ContentEncoding says gzip). -/
theorem claim_C4 {B F : Type} (gunzip : B → B) (jsonFeatures : B → List F)
    (storage : StorageG B) (tile_zxy : String) :
    (storage.getObject storage.bucket (storage.pref ++ "/" ++ tile_zxy ++ ".geojson") =
        .error (.clientError "NoSuchKey") →
      load_tile_precincts gunzip jsonFeatures storage tile_zxy = .ok []) ∧
    (∀ code, code ≠ "NoSuchKey" →
      storage.getObject storage.bucket (storage.pref ++ "/" ++ tile_zxy ++ ".geojson") =
        .error (.clientError code) →
      load_tile_precincts gunzip jsonFeatures storage tile_zxy =
        .error (.clientError code)) ∧
    (∀ enc body,
      storage.getObject storage.bucket (storage.pref ++ "/" ++ tile_zxy ++ ".geojson") =
        .ok (enc, body) →
      load_tile_precincts gunzip jsonFeatures storage tile_zxy =
        .ok (jsonFeatures (if enc = some "gzip" then gunzip body else body))) := by
  refine ⟨fun h => ?_, fun code hc h => ?_, fun enc body h => ?_⟩
  · simp [load_tile_precincts, h]
  · simp [load_tile_precincts, h, hc]
  · simp [load_tile_precincts, h]

/-- Witness for C4: all three branches at concrete storages. -/
theorem claim_C4_witness :
    load_tile_precincts (B := Unit) id (fun _ => [7])
      ⟨"b", "data/XX", fun _ _ => .error (.clientError "NoSuchKey")⟩ "12/1/2" = .ok [] ∧
    load_tile_precincts (B := Unit) id (fun _ => [7])
      ⟨"b", "data/XX", fun _ _ => .error (.clientError "AccessDenied")⟩ "12/1/2" =
      .error (.clientError "AccessDenied") ∧
    load_tile_precincts (B := Unit) id (fun _ => [7])
      ⟨"b", "data/XX", fun _ _ => .ok (none, ())⟩ "12/1/2" = .ok [7] := by
  refine ⟨?_, ?_, ?_⟩
  · exact (claim_C4 id (fun _ => [7])
      ⟨"b", "data/XX", fun _ _ => .error (.clientError "NoSuchKey")⟩ "12/1/2").1 rfl
  · exact (claim_C4 id (fun _ => [7])
      ⟨"b", "data/XX", fun _ _ => .error (.clientError "AccessDenied")⟩ "12/1/2").2.1
      "AccessDenied" (by decide) rfl
  · have h := (claim_C4 id (fun _ => [7])
      ⟨"b", "data/XX", fun _ _ => .ok (none, ())⟩ "12/1/2").2.2 none () rfl
    simpa using h

/-- C2: for a non-point, non-empty precinct feature with non-zero stored
fraction `f`, whose tile is not contained in the district geometry and
whose intersection with the district succeeds, `score_precinct` reports for
each whitelisted attribute `round(f * (overlapArea / precinctArea) *
value)`; and when the precinct geometry has zero area it returns the
all-zero totals instead of dividing by zero. -/
theorem claim_C2 {G : Type} (ops : GeomOps G) (fn : List String) (r : ℕ)
    (feat : Feature G) (pg dpg tg ov : G) (f : ℚ)
    (hg : feat.geometry = some pg)
    (hne : ops.isEmpty pg = false)
    (hde : ops.isEmpty dpg = false)
    (hnp : ops.isPointType pg = false)
    (hlf : lookupProp feat.properties FRACTION_FIELD = some (some f))
    (hf0 : f ≠ 0)
    (hns : ops.within tg dpg = false)
    (hint : ops.intersectionE pg dpg = .ok ov) :
    (ops.area pg ≠ 0 →
      score_precinct ops fn r (some dpg) feat tg =
        .ok ((initTotals fn feat.properties).map (fun p =>
          (p.fst, round10 r (ops.area ov / ops.area pg * f * propVal feat.properties p.fst))))) ∧
    (ops.area pg = 0 →
      score_precinct ops fn r (some dpg) feat tg = .ok (initTotals fn feat.properties)) := by
  have hbase : score_precinct ops fn r (some dpg) feat tg =
      afterIntersect ops r feat.properties (initTotals fn feat.properties) (some f) pg ov := by
    unfold score_precinct
    rw [hg]
    simp only [hne, hde, hnp, hlf, Bool.false_eq_true, if_false]
    unfold scoreWeighted
    simp only [hns, hf0, Option.some.injEq, if_false, Bool.false_eq_true, hint]
  constructor
  · intro hnz
    rw [hbase]
    unfold afterIntersect
    simp only [hnz, if_false]
    exact finalizeTotals_some_eq r feat.properties _ _ lookupProp_initTotals_isSome
  · intro hz
    rw [hbase]
    unfold afterIntersect
    simp only [hz, if_true]

/-- Witness for C2, covering the four fixed scenarios of the claim: a precinct
with `Voters=1, fraction=0.5` fully inside the district-intersected tile
contributes `0.5`; with half its area inside, `0.25`; touching the
boundary with zero-area overlap, `0`; fully outside, `0`. -/
theorem claim_C2_witness :
    score_precinct BoxGeom.ops ["Voters"] 4 (some (.boxG (-1) (-1) 2 2))
      ⟨some (.boxG 0 0 1 1), [("Voters", some 1), (FRACTION_FIELD, some (1/2))]⟩
      (.boxG 0 0 10 10) = .ok [("Voters", 1/2)] ∧
    score_precinct BoxGeom.ops ["Voters"] 4 (some (.boxG (-1) (-1) 1 5))
      ⟨some (.boxG 0 0 2 1), [("Voters", some 1), (FRACTION_FIELD, some (1/2))]⟩
      (.boxG 0 0 10 10) = .ok [("Voters", 1/4)] ∧
    score_precinct BoxGeom.ops ["Voters"] 4 (some (.boxG 1 0 2 1))
      ⟨some (.boxG 0 0 1 1), [("Voters", some 1), (FRACTION_FIELD, some (1/2))]⟩
      (.boxG 0 0 10 10) = .ok [("Voters", 0)] ∧
    score_precinct BoxGeom.ops ["Voters"] 4 (some (.boxG 5 5 6 6))
      ⟨some (.boxG 0 0 1 1), [("Voters", some 1), (FRACTION_FIELD, some (1/2))]⟩
      (.boxG 0 0 10 10) = .ok [("Voters", 0)] := by
  refine ⟨?_, ?_, ?_, ?_⟩
  · have h := (claim_C2 BoxGeom.ops ["Voters"] 4
      ⟨some (.boxG 0 0 1 1), [("Voters", some 1), (FRACTION_FIELD, some (1/2))]⟩
      (.boxG 0 0 1 1) (.boxG (-1) (-1) 2 2) (.boxG 0 0 10 10) (.boxG 0 0 1 1) (1/2)
      rfl (by with_unfolding_all decide) (by with_unfolding_all decide)
      (by with_unfolding_all decide) (by with_unfolding_all decide) (by norm_num)
      (by with_unfolding_all decide) (by with_unfolding_all decide)).1
      (by with_unfolding_all decide)
    rw [h]
    with_unfolding_all rfl
  · with_unfolding_all rfl
  · with_unfolding_all rfl
  · with_unfolding_all rfl

/-- C5: a point or multipoint precinct feature is scored with weight basis
1 and a binary inside/outside test: each whitelisted attribute contributes
its (rounded) full value when the point lies within the district (or
district∩tile) geometry and `0` otherwise, for arbitrary properties — the
fraction attribute is never consulted.  The hypothesis `hshort` states the
geometric fact that makes the containment shortcut agree with the binary
test (a point of the pre-clipped partition lies in the tile, so a tile
inside the district puts the point inside the district). -/
theorem claim_C5 {G : Type} (ops : GeomOps G) (fn : List String) (r : ℕ)
    (feat : Feature G) (pg dpg tg : G)
    (hg : feat.geometry = some pg)
    (hne : ops.isEmpty pg = false)
    (hde : ops.isEmpty dpg = false)
    (hp : ops.isPointType pg = true)
    (hshort : ops.within tg dpg = true → ops.within pg dpg = true) :
    score_precinct ops fn r (some dpg) feat tg =
      .ok ((initTotals fn feat.properties).map (fun p =>
        (p.fst, if ops.within pg dpg then round10 r (propVal feat.properties p.fst) else 0))) := by
  have hone : finalizeTotals r feat.properties (initTotals fn feat.properties) (some 1) =
      .ok ((initTotals fn feat.properties).map (fun p =>
        (p.fst, round10 r (propVal feat.properties p.fst)))) := by
    rw [finalizeTotals_some_eq r feat.properties 1 _ lookupProp_initTotals_isSome]
    simp only [one_mul]
  have hzero : finalizeTotals r feat.properties (initTotals fn feat.properties) (some 0) =
      .ok ((initTotals fn feat.properties).map (fun p => (p.fst, (0 : ℚ)))) := by
    rw [finalizeTotals_some_eq r feat.properties 0 _ lookupProp_initTotals_isSome]
    simp only [zero_mul, round10_zero]
  unfold score_precinct
  rw [hg]
  simp only [hne, hde, hp, Bool.false_eq_true, if_false, if_true]
  unfold scoreWeighted
  simp only [Option.some.injEq, one_ne_zero, if_false, if_true]
  cases hin : ops.within tg dpg with
  | true =>
    simp only [if_true, hshort hin, hone]
  | false =>
    simp only [Bool.false_eq_true, if_false, if_true]
    cases hw : ops.within pg dpg with
    | true => simp only [if_true, hone]
    | false => simp only [Bool.false_eq_true, if_false, hzero]

/-- Witness for C5: a point with `Voters=1` inside the district yields 1,
outside yields 0, with no fraction attribute on the feature. -/
theorem claim_C5_witness :
    score_precinct BoxGeom.ops ["Voters"] 4 (some (.boxG (-1) (-1) 2 2))
      ⟨some (.pointG 0 0), [("Voters", some 1)]⟩ (.boxG 0 0 10 10) = .ok [("Voters", 1)] ∧
    score_precinct BoxGeom.ops ["Voters"] 4 (some (.boxG 5 5 6 6))
      ⟨some (.pointG 0 0), [("Voters", some 1)]⟩ (.boxG 0 0 10 10) = .ok [("Voters", 0)] := by
  constructor
  · have h := claim_C5 BoxGeom.ops ["Voters"] 4
      ⟨some (.pointG 0 0), [("Voters", some 1)]⟩ (.pointG 0 0) (.boxG (-1) (-1) 2 2)
      (.boxG 0 0 10 10) rfl (by with_unfolding_all decide) (by with_unfolding_all decide)
      (by with_unfolding_all decide) (by with_unfolding_all decide)
    rw [h]
    with_unfolding_all rfl
  · have h := claim_C5 BoxGeom.ops ["Voters"] 4
      ⟨some (.pointG 0 0), [("Voters", some 1)]⟩ (.pointG 0 0) (.boxG 5 5 6 6)
      (.boxG 0 0 10 10) rfl (by with_unfolding_all decide) (by with_unfolding_all decide)
      (by with_unfolding_all decide) (by with_unfolding_all decide)
    rw [h]
    with_unfolding_all rfl

/-- C9: every successful return of `score_precinct` carries exactly the
key list of FIELD_NAMES entries present among the properties (whitelisted
attributes present on the feature), in `FIELD_NAMES` order; and on every
skipped-contribution short-circuit — missing geometry, empty geometry,
missing district, empty district, zero weight basis — every whitelisted
attribute is reported with an explicit `0`. -/
theorem claim_C9 {G : Type} (ops : GeomOps G) (fn : List String) (r : ℕ)
    (dpg : Option G) (feat : Feature G) (tg : G) :
    (∀ t, score_precinct ops fn r dpg feat tg = .ok t →
      t.map Prod.fst = fn.filter (fun n => (lookupProp feat.properties n).isSome)) ∧
    (feat.geometry = none →
      score_precinct ops fn r dpg feat tg =
        .ok ((fn.filter (fun n => (lookupProp feat.properties n).isSome)).map
          (fun n => (n, (0 : ℚ))))) ∧
    (∀ pg, feat.geometry = some pg → ops.isEmpty pg = true →
      score_precinct ops fn r dpg feat tg =
        .ok ((fn.filter (fun n => (lookupProp feat.properties n).isSome)).map
          (fun n => (n, (0 : ℚ))))) ∧
    (∀ pg, feat.geometry = some pg → ops.isEmpty pg = false →
      score_precinct ops fn r none feat tg =
        .ok ((fn.filter (fun n => (lookupProp feat.properties n).isSome)).map
          (fun n => (n, (0 : ℚ))))) ∧
    (∀ pg d, feat.geometry = some pg → ops.isEmpty pg = false →
      ops.isEmpty d = true →
      score_precinct ops fn r (some d) feat tg =
        .ok ((fn.filter (fun n => (lookupProp feat.properties n).isSome)).map
          (fun n => (n, (0 : ℚ))))) ∧
    (∀ pg d, feat.geometry = some pg → ops.isEmpty pg = false →
      ops.isEmpty d = false → ops.isPointType pg = false →
      lookupProp feat.properties FRACTION_FIELD = some (some 0) →
      score_precinct ops fn r (some d) feat tg =
        .ok ((fn.filter (fun n => (lookupProp feat.properties n).isSome)).map
          (fun n => (n, (0 : ℚ))))) := by
  have hkeys := initTotals_keys fn feat.properties
  refine ⟨?_, ?_, ?_, ?_, ?_, ?_⟩
  · intro t ht
    unfold score_precinct at ht
    split at ht
    · cases ht; exact hkeys
    · split at ht
      · cases ht; exact hkeys
      · split at ht
        · cases ht; exact hkeys
        · split at ht
          · cases ht; exact hkeys
          · split at ht
            · exact (scoreWeighted_ok_keys _ _ _ _ _ _ _ _ _ _ ht).trans hkeys
            · split at ht
              · exact Except.noConfusion ht
              · exact (scoreWeighted_ok_keys _ _ _ _ _ _ _ _ _ _ ht).trans hkeys
  · intro hnone
    unfold score_precinct
    rw [hnone]
    rfl
  · intro pg hg hemp
    unfold score_precinct
    rw [hg]
    simp only [hemp, if_true]
    rfl
  · intro pg hg hne
    unfold score_precinct
    rw [hg]
    simp only [hne, Bool.false_eq_true, if_false]
    rfl
  · intro pg d hg hne hde
    unfold score_precinct
    rw [hg]
    simp only [hne, hde, Bool.false_eq_true, if_false, if_true]
    rfl
  · intro pg d hg hne hde hnp hfr
    unfold score_precinct
    rw [hg]
    simp only [hne, hde, hnp, hfr, Bool.false_eq_true, if_false]
    unfold scoreWeighted
    simp only [if_true]
    rfl

/-- Witness for C9: an attribute outside the whitelist (the fraction
field) is dropped, a whitelisted attribute missing from the feature is
dropped, the present whitelisted attribute survives; and a
zero-weight-basis precinct and a zero-area (empty) geometry both report
an explicit zero for the surviving attribute. -/
theorem claim_C9_witness :
    (([("Voters", (1/2 : ℚ))] : Totals).map Prod.fst =
      ["Voters", "Red Votes"].filter (fun n =>
        (lookupProp [("Voters", some 1), (FRACTION_FIELD, some (1/2))] n).isSome)) ∧
    score_precinct BoxGeom.ops ["Voters"] 4 (some (.boxG (-1) (-1) 2 2))
      ⟨some (.boxG 0 0 1 1), [("Voters", some 1), (FRACTION_FIELD, some 0)]⟩
      (.boxG 0 0 10 10) = .ok [("Voters", 0)] ∧
    score_precinct BoxGeom.ops ["Voters"] 4 (some (.boxG (-1) (-1) 2 2))
      ⟨some .emptyG, [("Voters", some 1), (FRACTION_FIELD, some (1/2))]⟩
      (.boxG 0 0 10 10) = .ok [("Voters", 0)] := by
  refine ⟨?_, ?_, ?_⟩
  · exact (claim_C9 BoxGeom.ops ["Voters", "Red Votes"] 4 (some (.boxG (-1) (-1) 2 2))
      ⟨some (.boxG 0 0 1 1), [("Voters", some 1), (FRACTION_FIELD, some (1/2))]⟩
      (.boxG 0 0 10 10)).1 [("Voters", 1/2)] (by with_unfolding_all rfl)
  · have h := (claim_C9 BoxGeom.ops ["Voters"] 4 (some (.boxG (-1) (-1) 2 2))
      ⟨some (.boxG 0 0 1 1), [("Voters", some 1), (FRACTION_FIELD, some 0)]⟩
      (.boxG 0 0 10 10)).2.2.2.2.2 (.boxG 0 0 1 1) (.boxG (-1) (-1) 2 2) rfl
      (by with_unfolding_all decide) (by with_unfolding_all decide)
      (by with_unfolding_all decide) (by with_unfolding_all decide)
    rw [h]
    with_unfolding_all rfl
  · have h := (claim_C9 BoxGeom.ops ["Voters"] 4 (some (.boxG (-1) (-1) 2 2))
      ⟨some .emptyG, [("Voters", some 1), (FRACTION_FIELD, some (1/2))]⟩
      (.boxG 0 0 10 10)).2.2.1 .emptyG rfl (by with_unfolding_all decide)
    rw [h]
    with_unfolding_all rfl

/-- C10: a non-empty, non-point precinct feature lacking the
`PlanScore:Fraction` property makes `score_precinct` raise `KeyError`
(no default is applied), while a point or multipoint feature never reads
the fraction field: scoring it always succeeds, whatever its
properties. -/
theorem claim_C10 {G : Type} (ops : GeomOps G) (fn : List String) (r : ℕ)
    (feat : Feature G) (pg dpg tg : G)
    (hg : feat.geometry = some pg)
    (hne : ops.isEmpty pg = false)
    (hde : ops.isEmpty dpg = false) :
    (ops.isPointType pg = false →
      lookupProp feat.properties FRACTION_FIELD = none →
      score_precinct ops fn r (some dpg) feat tg = .error (.keyError FRACTION_FIELD)) ∧
    (ops.isPointType pg = true →
      ∃ t, score_precinct ops fn r (some dpg) feat tg = .ok t) := by
  constructor
  · intro hnp hmiss
    unfold score_precinct
    rw [hg]
    simp only [hne, hde, hnp, hmiss, Bool.false_eq_true, if_false]
  · intro hp
    have hone := finalizeTotals_some_eq r feat.properties 1
      (initTotals fn feat.properties) lookupProp_initTotals_isSome
    have hzero := finalizeTotals_some_eq r feat.properties 0
      (initTotals fn feat.properties) lookupProp_initTotals_isSome
    unfold score_precinct
    rw [hg]
    simp only [hne, hde, hp, Bool.false_eq_true, if_false, if_true]
    unfold scoreWeighted
    simp only [Option.some.injEq, one_ne_zero, if_false, if_true]
    cases hin : ops.within tg dpg with
    | true =>
      simp only [if_true]
      exact ⟨_, hone⟩
    | false =>
      simp only [Bool.false_eq_true, if_false, if_true]
      cases hw : ops.within pg dpg with
      | true => simp only [if_true]; exact ⟨_, hone⟩
      | false => simp only [Bool.false_eq_true, if_false]; exact ⟨_, hzero⟩

/-- Witness for C10: a polygon feature without the fraction property
raises a KeyError naming the fraction field; a point feature without it is
scored successfully. -/
theorem claim_C10_witness :
    score_precinct BoxGeom.ops ["Voters"] 4 (some (.boxG (-1) (-1) 2 2))
      ⟨some (.boxG 0 0 1 1), [("Voters", some 1)]⟩ (.boxG 0 0 10 10) =
      .error (.keyError FRACTION_FIELD) ∧
    (∃ t, score_precinct BoxGeom.ops ["Voters"] 4 (some (.boxG (-1) (-1) 2 2))
      ⟨some (.pointG 0 0), [("Voters", some 1)]⟩ (.boxG 0 0 10 10) = .ok t) := by
  constructor
  · exact (claim_C10 BoxGeom.ops ["Voters"] 4 ⟨some (.boxG 0 0 1 1), [("Voters", some 1)]⟩
      (.boxG 0 0 1 1) (.boxG (-1) (-1) 2 2) (.boxG 0 0 10 10) rfl
      (by with_unfolding_all decide) (by with_unfolding_all decide)).1
      (by with_unfolding_all decide) (by with_unfolding_all decide)
  · exact (claim_C10 BoxGeom.ops ["Voters"] 4 ⟨some (.pointG 0 0), [("Voters", some 1)]⟩
      (.pointG 0 0) (.boxG (-1) (-1) 2 2) (.boxG 0 0 10 10) rfl
      (by with_unfolding_all decide) (by with_unfolding_all decide)).2
      (by with_unfolding_all decide)

/-- C6: when the intersection with the district raises an error `e`, the
computation is retried exactly once with the precinct geometry buffered by
`1e-7` — but only if `e` is a topology error and the precinct geometry is
invalid; otherwise (non-topology error, or a valid geometry) `e`
propagates unrepaired. -/
theorem claim_C6 {G : Type} (ops : GeomOps G) (fn : List String) (r : ℕ)
    (feat : Feature G) (pg dpg tg : G) (fr : Option ℚ) (e : OgrError)
    (hg : feat.geometry = some pg)
    (hne : ops.isEmpty pg = false)
    (hde : ops.isEmpty dpg = false)
    (hnp : ops.isPointType pg = false)
    (hlf : lookupProp feat.properties FRACTION_FIELD = some fr)
    (hf0 : fr ≠ some 0)
    (hns : ops.within tg dpg = false)
    (herr : ops.intersectionE pg dpg = .error e) :
    (errTopology e = true → ops.isValid pg = false →
      score_precinct ops fn r (some dpg) feat tg =
        (match ops.intersectionE (ops.buffer pg bufferEps) dpg with
         | .ok ov => afterIntersect ops r feat.properties (initTotals fn feat.properties) fr
             (ops.buffer pg bufferEps) ov
         | .error e2 => .error (.runtime e2))) ∧
    ((errTopology e = false ∨ ops.isValid pg = true) →
      score_precinct ops fn r (some dpg) feat tg = .error (.runtime e)) := by
  have hbase : score_precinct ops fn r (some dpg) feat tg =
      scoreWeighted ops r feat.properties (initTotals fn feat.properties) false fr pg dpg tg := by
    unfold score_precinct
    rw [hg]
    simp only [hne, hde, hnp, hlf, Bool.false_eq_true, if_false]
  constructor
  · intro htopo hval
    rw [hbase]
    unfold scoreWeighted
    simp only [hf0, hns, herr, htopo, hval, Bool.false_eq_true, if_false,
      Bool.not_false, Bool.and_true, if_true]
  · intro hor
    rw [hbase]
    unfold scoreWeighted
    cases hor with
    | inl htopo =>
      simp only [hf0, hns, herr, htopo, Bool.false_eq_true, if_false, Bool.false_and]
    | inr hval =>
      simp only [hf0, hns, herr, hval, Bool.false_eq_true, if_false,
        Bool.not_true, Bool.and_false]

/-- Witness for C6: an invalid geometry with a topology error is repaired
by buffering and scored; a topology error on a valid geometry propagates; a
non-topology error propagates even for an invalid geometry. -/
theorem claim_C6_witness :
    score_precinct (topoOps false (.topologyExc "side-location conflict")) ["Voters"] 4
      (some 5) ⟨some 0, [("Voters", some 4), (FRACTION_FIELD, some (1/2))]⟩ 9 =
      .ok [("Voters", 1)] ∧
    score_precinct (topoOps true (.topologyExc "side-location conflict")) ["Voters"] 4
      (some 5) ⟨some 0, [("Voters", some 4), (FRACTION_FIELD, some (1/2))]⟩ 9 =
      .error (.runtime (.topologyExc "side-location conflict")) ∧
    score_precinct (topoOps false (.otherExc "boom")) ["Voters"] 4
      (some 5) ⟨some 0, [("Voters", some 4), (FRACTION_FIELD, some (1/2))]⟩ 9 =
      .error (.runtime (.otherExc "boom")) := by
  refine ⟨?_, ?_, ?_⟩
  · have h := (claim_C6 (topoOps false (.topologyExc "side-location conflict")) ["Voters"] 4
      ⟨some 0, [("Voters", some 4), (FRACTION_FIELD, some (1/2))]⟩ 0 5 9 (some (1/2))
      (.topologyExc "side-location conflict") rfl rfl rfl rfl
      (by with_unfolding_all decide) (by with_unfolding_all decide) rfl rfl).1 rfl rfl
    rw [h]
    with_unfolding_all rfl
  · exact (claim_C6 (topoOps true (.topologyExc "side-location conflict")) ["Voters"] 4
      ⟨some 0, [("Voters", some 4), (FRACTION_FIELD, some (1/2))]⟩ 0 5 9 (some (1/2))
      (.topologyExc "side-location conflict") rfl rfl rfl rfl
      (by with_unfolding_all decide) (by with_unfolding_all decide) rfl rfl).2 (Or.inr rfl)
  · exact (claim_C6 (topoOps false (.otherExc "boom")) ["Voters"] 4
      ⟨some 0, [("Voters", some 4), (FRACTION_FIELD, some (1/2))]⟩ 0 5 9 (some (1/2))
      (.otherExc "boom") rfl rfl rfl rfl
      (by with_unfolding_all decide) (by with_unfolding_all decide) rfl rfl).2 (Or.inl rfl)

/-- C1: when the tile is fully contained in the district∩tile geometry and
the precinct is pre-clipped to the tile, `score_precinct` (which takes the
containment shortcut) returns exactly the same totals as the explicit
intersection-based computation of §4.3 steps 6-7.  `htrans` is the
containment-transitivity fact of the geometry library; `hint`/`harea`
state that intersecting the contained precinct with the district keeps its
area; `hnz` holds for partition features with non-zero stored fraction
(a zero-area clipped precinct gets fraction 0 and never reaches the
shortcut); `hfr` says a stored fraction, when present, is a number. -/
theorem claim_C1 {G : Type} (ops : GeomOps G) (fn : List String) (r : ℕ)
    (feat : Feature G) (pg dpg tg ov : G)
    (hg : feat.geometry = some pg)
    (ht : ops.within tg dpg = true)
    (hclip : ops.within pg tg = true)
    (htrans : ops.within pg tg = true → ops.within tg dpg = true →
      ops.within pg dpg = true)
    (hint : ops.intersectionE pg dpg = .ok ov)
    (harea : ops.area ov = ops.area pg)
    (hnz : ops.area pg ≠ 0)
    (hfr : lookupProp feat.properties FRACTION_FIELD ≠ some none) :
    score_precinct ops fn r (some dpg) feat tg =
      score_precinct_explicit ops fn r (some dpg) feat tg := by
  have hpd := htrans hclip ht
  unfold score_precinct score_precinct_explicit
  rw [hg]
  cases hemp : ops.isEmpty pg with
  | true => simp only [hemp, if_true]
  | false =>
    cases hdemp : ops.isEmpty dpg with
    | true => simp only [hemp, hdemp, Bool.false_eq_true, if_false, if_true]
    | false =>
      cases hpt : ops.isPointType pg with
      | true =>
        simp only [hemp, hdemp, hpt, Bool.false_eq_true, if_false, if_true]
        unfold scoreWeighted scoreWeightedExplicit
        simp only [Option.some.injEq, one_ne_zero, if_false, ht, hpd, if_true]
      | false =>
        cases hfl : lookupProp feat.properties FRACTION_FIELD with
        | none => simp only [hemp, hdemp, hpt, hfl, Bool.false_eq_true, if_false]
        | some fr =>
          cases fr with
          | none => exact absurd hfl hfr
          | some q =>
            simp only [hemp, hdemp, hpt, hfl, Bool.false_eq_true, if_false]
            unfold scoreWeighted scoreWeightedExplicit
            by_cases hq : q = 0
            · subst hq
              simp
            · simp only [Option.some.injEq, hq, if_false, ht, if_true, hint,
                Bool.false_eq_true]
              unfold afterIntersect
              simp only [hnz, if_false, harea, div_self hnz, one_mul]

/-- Witness for C1: a precinct box clipped inside a tile that the
district∩tile geometry fully contains scores identically (value 1.5) with
and without the shortcut. -/
theorem claim_C1_witness :
    score_precinct BoxGeom.ops ["Voters"] 4 (some (.boxG (-1) (-1) 11 11))
      ⟨some (.boxG 2 2 4 4), [("Voters", some 3), (FRACTION_FIELD, some (1/2))]⟩
      (.boxG 0 0 10 10) =
      score_precinct_explicit BoxGeom.ops ["Voters"] 4 (some (.boxG (-1) (-1) 11 11))
        ⟨some (.boxG 2 2 4 4), [("Voters", some 3), (FRACTION_FIELD, some (1/2))]⟩
        (.boxG 0 0 10 10) ∧
    score_precinct BoxGeom.ops ["Voters"] 4 (some (.boxG (-1) (-1) 11 11))
      ⟨some (.boxG 2 2 4 4), [("Voters", some 3), (FRACTION_FIELD, some (1/2))]⟩
      (.boxG 0 0 10 10) = .ok [("Voters", 3/2)] := by
  constructor
  · exact claim_C1 BoxGeom.ops ["Voters"] 4
      ⟨some (.boxG 2 2 4 4), [("Voters", some 3), (FRACTION_FIELD, some (1/2))]⟩
      (.boxG 2 2 4 4) (.boxG (-1) (-1) 11 11) (.boxG 0 0 10 10) (.boxG 2 2 4 4)
      rfl (by with_unfolding_all decide) (by with_unfolding_all decide)
      (by with_unfolding_all decide) (by with_unfolding_all decide)
      (by with_unfolding_all decide) (by with_unfolding_all decide)
      (by with_unfolding_all decide)
  · with_unfolding_all rfl

theorem foldlM_update_eq_mapM {G : Type} (ops : GeomOps G) (fn : List String) (r : ℕ)
    (dpg tg : G) :
    ∀ (ps : List (Feature G)) (acc : Totals),
      ps.foldlM (fun totals precinct_feat => do
        let subtotals ← score_precinct ops fn r (some dpg) precinct_feat tg
        pure (dictUpdate totals (roundAdd r totals subtotals))) acc =
      (do
        let subs ← ps.mapM (fun precinct_feat => score_precinct ops fn r (some dpg) precinct_feat tg)
        pure (subs.foldl (fun totals subtotals =>
          dictUpdate totals (roundAdd r totals subtotals)) acc)) := by
  intro ps
  induction ps with
  | nil => intro acc; rfl
  | cons p ps ih =>
    intro acc
    simp only [List.foldlM_cons, List.mapM_cons]
    cases h : score_precinct ops fn r (some dpg) p tg with
    | error e => rfl
    | ok s =>
      show (ps.foldlM _ (dictUpdate acc (roundAdd r acc s))) = _
      rw [ih (dictUpdate acc (roundAdd r acc s))]
      cases hm : ps.mapM (fun precinct_feat => score_precinct ops fn r (some dpg) precinct_feat tg) with
      | error e => rfl
      | ok subs => rfl

/-- C3: `score_district` returns empty totals when district and tile are
disjoint, without attempting the intersection; otherwise it computes
`district ∩ tile` once, scores every precinct of the tile against that
same partial-district geometry, and accumulates the per-precinct
subtotals (rounding after each addition) — i.e. it coincides with the
function `scoreDistrictOverTile` of the spec on all inputs. -/
theorem claim_C3 {G : Type} (ops : GeomOps G) (fn : List String) (r : ℕ)
    (district_geom : G) (precincts : List (Feature G)) (tile_geom : G) :
    (ops.disjoint district_geom tile_geom = true →
      score_district ops fn r district_geom precincts tile_geom = .ok []) ∧
    score_district ops fn r district_geom precincts tile_geom =
      scoreDistrictOverTile ops fn r district_geom precincts tile_geom := by
  constructor
  · intro h
    unfold score_district
    simp only [h, if_true]
  · unfold score_district scoreDistrictOverTile
    cases hd : ops.disjoint district_geom tile_geom with
    | true => simp only [hd, if_true]
    | false =>
      simp only [hd, Bool.false_eq_true, if_false]
      cases hint : ops.intersectionE district_geom tile_geom with
      | error e => rfl
      | ok dpg => exact foldlM_update_eq_mapM ops fn r dpg tile_geom precincts []

/-- Witness for C3: the disjoint short-circuit at a concrete disjoint
pair — including a storage-style model whose intersection would raise,
showing no intersection is attempted — and the agreement of the two
formulations on a concrete two-precinct tile. -/
theorem claim_C3_witness :
    score_district (topoOps true (.topologyExc "t")) ["Voters"] 4 0
      [⟨some 0, [("Voters", some 4), (FRACTION_FIELD, some (1/2))]⟩] 7 =
      scoreDistrictOverTile (topoOps true (.topologyExc "t")) ["Voters"] 4 0
        [⟨some 0, [("Voters", some 4), (FRACTION_FIELD, some (1/2))]⟩] 7 ∧
    score_district BoxGeom.ops ["Voters"] 4 (.boxG 20 20 30 30)
      [⟨some (.boxG 0 0 1 1), [("Voters", some 1), (FRACTION_FIELD, some (1/2))]⟩]
      (.boxG 0 0 10 10) = .ok [] ∧
    score_district BoxGeom.ops ["Voters"] 4 (.boxG (-1) (-1) 11 11)
      [⟨some (.boxG 0 0 1 1), [("Voters", some 1), (FRACTION_FIELD, some (1/2))]⟩,
       ⟨some (.boxG 1 1 2 2), [("Voters", some 2), (FRACTION_FIELD, some 1)]⟩]
      (.boxG 0 0 10 10) = .ok [("Voters", 5/2)] := by
  refine ⟨?_, ?_, ?_⟩
  · exact (claim_C3 (topoOps true (.topologyExc "t")) ["Voters"] 4 0
      [⟨some 0, [("Voters", some 4), (FRACTION_FIELD, some (1/2))]⟩] 7).2
  · exact (claim_C3 BoxGeom.ops ["Voters"] 4 (.boxG 20 20 30 30)
      [⟨some (.boxG 0 0 1 1), [("Voters", some 1), (FRACTION_FIELD, some (1/2))]⟩]
      (.boxG 0 0 10 10)).1 (by with_unfolding_all decide)
  · with_unfolding_all rfl

theorem mem_intRange {a b x : ℤ} : x ∈ intRange a b ↔ a ≤ x ∧ x ≤ b := by
  unfold intRange
  rw [List.mem_map]
  constructor
  · rintro ⟨i, hi, rfl⟩
    rw [List.mem_range] at hi
    omega
  · rintro ⟨h1, h2⟩
    refine ⟨(x - a).toNat, ?_, ?_⟩
    · rw [List.mem_range]
      omega
    · omega

theorem intRange_pairwise (a b : ℤ) : (intRange a b).Pairwise (· < ·) := by
  unfold intRange
  rw [List.pairwise_map]
  exact (List.pairwise_lt_range _).imp (fun h => by omega)

theorem pairwise_rowMajor {l1 l2 : List ℤ}
    (h1 : l1.Pairwise (· < ·)) (h2 : l2.Pairwise (· < ·)) :
    (l1.flatMap (fun a => l2.map (fun b => (a, b)))).Pairwise
      (fun x y => x.1 < y.1 ∨ (x.1 = y.1 ∧ x.2 < y.2)) := by
  induction l1 with
  | nil => simp
  | cons a l1 ih =>
    rw [List.flatMap_cons, List.pairwise_append]
    rw [List.pairwise_cons] at h1
    refine ⟨?_, ih h1.2, ?_⟩
    · rw [List.pairwise_map]
      exact h2.imp (fun h => Or.inr ⟨rfl, h⟩)
    · intro x hx y hy
      obtain ⟨bx, _, rfl⟩ := List.mem_map.mp hx
      obtain ⟨ay, hay, hy2⟩ := List.mem_flatMap.mp hy
      obtain ⟨bz, _, rfl⟩ := List.mem_map.mp hy2
      exact Or.inl (h1.1 ay hay)

/-- C7: `iter_extent_tiles` yields exactly the tiles of the rectangular
tile-coordinate range spanned by the corners of the extent (computed through
the mercator projection, kept abstract as `locCoord`), in strict row-major
order: ascending row, and within a row ascending column.  Being a pure
function of its inputs, repeated enumeration yields the identical list. -/
theorem claim_C7 (locCoord : ℤ → ℚ → ℚ → ℤ × ℤ) (coordLoc : ℤ → ℤ → ℤ → ℚ × ℚ)
    (w e s n : ℚ) (zoom : ℤ) :
    ((iter_extent_tiles locCoord coordLoc (w, e, s, n) zoom).map
        (fun p => (p.fst.row, p.fst.column))).Pairwise
      (fun x y => x.1 < y.1 ∨ (x.1 = y.1 ∧ x.2 < y.2)) ∧
    (∀ rc : MCoord,
      (∃ bbox, (rc, bbox) ∈ iter_extent_tiles locCoord coordLoc (w, e, s, n) zoom) ↔
      ((locCoord zoom n w).1 ≤ rc.row ∧ rc.row ≤ (locCoord zoom s e).1 ∧
       (locCoord zoom n w).2 ≤ rc.column ∧ rc.column ≤ (locCoord zoom s e).2 ∧
       rc.zoom = zoom)) := by
  constructor
  · unfold iter_extent_tiles
    rw [List.map_flatMap]
    simp only [List.map_map]
    exact pairwise_rowMajor (intRange_pairwise _ _) (intRange_pairwise _ _)
  · intro rc
    unfold iter_extent_tiles
    simp only [List.mem_flatMap, List.mem_map, Prod.mk.injEq]
    constructor
    · rintro ⟨bbox, row, hrow, column, hcol, hmk, _⟩
      obtain ⟨h1, h2⟩ := mem_intRange.mp hrow
      obtain ⟨h3, h4⟩ := mem_intRange.mp hcol
      cases hmk
      exact ⟨h1, h2, h3, h4, rfl⟩
    · rintro ⟨h1, h2, h3, h4, hz⟩
      refine ⟨_, rc.row, mem_intRange.mpr ⟨h1, h2⟩, rc.column, mem_intRange.mpr ⟨h3, h4⟩, ?_, rfl⟩
      cases rc
      cases hz
      rfl

/-- Witness for C7: with a concrete projection sending the extent corners
to tile rows 0-1 and columns 3-4, the enumeration is exactly the four
tiles in row-major order, and the membership characterization holds at
tile (1,4). -/
theorem claim_C7_witness :
    iter_extent_tiles (fun _ la lo => (if la = 1 then 0 else 1, if lo = 0 then 3 else 4))
      (fun _ row column => ((row : ℚ), (column : ℚ))) (0, 1, 0, 1) 5 =
      [(⟨0, 3, 5⟩, (3, 1, 4, 0)), (⟨0, 4, 5⟩, (4, 1, 5, 0)),
       (⟨1, 3, 5⟩, (3, 2, 4, 1)), (⟨1, 4, 5⟩, (4, 2, 5, 1))] ∧
    ((∃ bbox, ((⟨1, 4, 5⟩ : MCoord), bbox) ∈
        iter_extent_tiles (fun _ la lo => (if la = 1 then 0 else 1, if lo = 0 then 3 else 4))
          (fun _ row column => ((row : ℚ), (column : ℚ))) (0, 1, 0, 1) 5) ↔
      ((0 : ℤ) ≤ 1 ∧ (1 : ℤ) ≤ 1 ∧ (3 : ℤ) ≤ 4 ∧ (4 : ℤ) ≤ 4 ∧ (5 : ℤ) = 5)) := by
  constructor
  · with_unfolding_all rfl
  · have h := (claim_C7 (fun _ la lo => (if la = 1 then 0 else 1, if lo = 0 then 3 else 4))
      (fun _ row column => ((row : ℚ), (column : ℚ))) 0 1 0 1 5).2 ⟨1, 4, 5⟩
    convert h using 2

/-- Counterexample to C8 as stated: `lambda_handler` does catch an
exception raised while loading a district geometry during scoring — here
the geometry fetch raises a client error — and still writes a result
object as if the invocation completed, recording `str(err)` in place of
the totals. -/
theorem claim_C8_counterexample :
    handlerEnv0.getBodyWkt "uploads/ID/geometries/0.wkt" =
      .error (.clientError "AccessDenied") ∧
    lambda_handler handlerEnv0 =
      .ok ⟨"uploads/ID/tiles/12/2047/2047.json", "uploads/ID/tiles/12/2047/2047.json",
        "uploads/ID/geometries", .inr (pyErrStr (.clientError "AccessDenied")), 1⟩ := by
  constructor
  · rfl
  · with_unfolding_all rfl

/-- C8 amended: once the precinct fetch has succeeded (so the result key
is bound), any exception raised afterwards — by the geometry listing
itself, or while loading, parsing or scoring district geometries — is
caught by the catch-all of `lambda_handler`; the invocation still writes
the result object, with str(err) recorded as the totals value instead of
propagating the error. -/
theorem claim_C8 {G B : Type} (env : HandlerEnv G B) (ps : List (Feature G))
    (hload : load_tile_precincts env.gunzip env.jsonFeatures env.storage
      (get_tile_zxy env.model_key_pref env.event_key) = .ok ps) :
    (∀ e, env.listObjects env.geoms_pref = .error e →
      lambda_handler env =
        .ok ⟨env.tiles_key_of (get_tile_zxy env.model_key_pref env.event_key),
             env.tiles_key_of (get_tile_zxy env.model_key_pref env.event_key),
             env.geoms_pref, .inr (pyErrStr e), ps.length⟩) ∧
    (∀ gkeys e, env.listObjects env.geoms_pref = .ok gkeys →
      scoreGeometryKeys env ps
        (env.tileGeomOf (get_tile_zxy env.model_key_pref env.event_key)) gkeys = .error e →
      lambda_handler env =
        .ok ⟨env.tiles_key_of (get_tile_zxy env.model_key_pref env.event_key),
             env.tiles_key_of (get_tile_zxy env.model_key_pref env.event_key),
             env.geoms_pref, .inr (pyErrStr e), ps.length⟩) := by
  constructor
  · intro e hlist
    unfold lambda_handler handlerTry
    simp only [hload, hlist]
  · intro gkeys e hlist hscore
    unfold lambda_handler handlerTry
    simp only [hload, hlist, hscore]

/-- Witness for C8 (amended): at one concrete environment the scoring
loop fails and the handler completes with the error string written as the
totals; at another the geometry listing itself fails and the handler
still completes the write the same way. -/
theorem claim_C8_witness :
    lambda_handler handlerEnv0 =
      .ok ⟨handlerEnv0.tiles_key_of (get_tile_zxy handlerEnv0.model_key_pref handlerEnv0.event_key),
           handlerEnv0.tiles_key_of (get_tile_zxy handlerEnv0.model_key_pref handlerEnv0.event_key),
           handlerEnv0.geoms_pref, .inr (pyErrStr (.clientError "AccessDenied")),
           ([⟨some (.boxG 0 0 1 1), [("Voters", some 1), (FRACTION_FIELD, some 1)]⟩] :
             List (Feature BoxGeom)).length⟩ ∧
    lambda_handler handlerEnv1 =
      .ok ⟨handlerEnv1.tiles_key_of (get_tile_zxy handlerEnv1.model_key_pref handlerEnv1.event_key),
           handlerEnv1.tiles_key_of (get_tile_zxy handlerEnv1.model_key_pref handlerEnv1.event_key),
           handlerEnv1.geoms_pref, .inr (pyErrStr (.clientError "Throttled")),
           ([⟨some (.boxG 0 0 1 1), [("Voters", some 1), (FRACTION_FIELD, some 1)]⟩] :
             List (Feature BoxGeom)).length⟩ := by
  constructor
  · exact (claim_C8 handlerEnv0
      [⟨some (.boxG 0 0 1 1), [("Voters", some 1), (FRACTION_FIELD, some 1)]⟩]
      (by with_unfolding_all rfl)).2 ["uploads/ID/geometries/0.wkt"]
      (.clientError "AccessDenied") rfl (by with_unfolding_all rfl)
  · exact (claim_C8 handlerEnv1
      [⟨some (.boxG 0 0 1 1), [("Voters", some 1), (FRACTION_FIELD, some 1)]⟩]
      (by with_unfolding_all rfl)).1 (.clientError "Throttled") rfl

end PlanScore
